import Mathlib

/-!
Shallow embedding of the voice-consultation call lifecycle, transcript
accumulator and consultation summarizer of the AI-Patient-Voice-Agent
repository (src/components/voice/VoiceChatInterface.tsx and src/lib/vapi.ts),
together with theorems settling the frozen claims about it.

Conventions of the embedding:
- React `useState` fields become fields of `ComponentState`; a `setX(v)` call
  becomes a functional update of the field.  Per the event-driven,
  single-threaded model, each externally delivered event (engine callback,
  user action, timer tick) is processed to completion before the next, and a
  handler reads the state as updated by earlier events.
- JavaScript string builtins (`split`, `trim`, `endsWith`, truthiness of a
  possibly-empty string) are modelled by executable definitions over the
  character data so that concrete runs reduce inside the kernel.
- Timestamps are milliseconds as natural numbers; `Math.floor((now-start)/1000)`
  becomes natural division.
-/

namespace VoiceAgent

/-- The two utterance roles delivered by the engine
(`role: 'user' | 'assistant'` in VoiceChatInterface.tsx). -/
inductive Role where
  | user
  | assistant
deriving DecidableEq, Repr

/-- Role label used when flattening the transcript
(`msg.role === 'user' ? 'Patient' : 'AI Nurse'`). -/
def roleLabel : Role → String
  | Role.user => "Patient"
  | Role.assistant => "AI Nurse"

/-- One finalized (or pending) utterance: interface TranscriptMessage
in VoiceChatInterface.tsx (`id`, `role`, `content`, `timestamp`). -/
structure TranscriptMessage where
  id : String
  role : Role
  content : String
  timestamp : Nat
deriving DecidableEq, Repr

/-- The parts of the engine's end-of-call-report read by the component:
`message.summary` and `message.artifact.transcript`.  A missing `artifact`
object and a missing `artifact.transcript` are conflated (both read as
absent by the `&&` chain in the source). -/
structure EndOfCallReport where
  summary : Option String
  artifactTranscript : Option String
deriving DecidableEq, Repr

/-- The fields of the patient profile consulted by the summarizer
(`profile?.city`, `profile?.state`). -/
structure Profile where
  city : Option String
  state : Option String
deriving DecidableEq, Repr

/-- The persisted artifact: interface ConversationSummary in src/lib/vapi.ts. -/
structure ConversationSummary where
  summary : String
  symptoms : String
  diagnosis : String
  followUpContacts : String
  disclaimer : String
  duration : Nat
  transcript : String
deriving DecidableEq, Repr

/-- JavaScript truthiness of a nullable string: `null`/`undefined` and the
empty string are falsy, every other string is truthy. -/
def optTruthy : Option String → Bool
  | none => false
  | some s => !(s == "")

/-- Fuel-driven worker for `jsSplit`: scans the character list left to right,
splitting at each occurrence of the separator, as JavaScript
`String.prototype.split` does for a non-empty separator.  The fuel is only a
termination device; it is always at least the length of the input. -/
def jsSplitGo (sep : List Char) : Nat → List Char → List Char → List (List Char)
  | _, [], acc => [acc.reverse]
  | 0, l, acc => [acc.reverse ++ l]
  | fuel + 1, c :: rest, acc =>
    if sep.isPrefixOf (c :: rest) then
      acc.reverse :: jsSplitGo sep fuel ((c :: rest).drop sep.length) []
    else
      jsSplitGo sep fuel rest (c :: acc)

/-- JavaScript `s.split(sep)`.  With an empty separator JavaScript splits
into single characters; with a non-empty separator it splits on every
occurrence, keeping empty pieces. -/
def jsSplit (s sep : String) : List String :=
  if sep = "" then s.data.map (fun c => String.mk [c])
  else (jsSplitGo sep.data (s.data.length + 1) s.data []).map String.mk

/-- JavaScript `s.trim()`: strip leading and trailing whitespace. -/
def jsTrim (s : String) : String :=
  String.mk ((((s.data.dropWhile Char.isWhitespace).reverse).dropWhile
    Char.isWhitespace).reverse)

/-- JavaScript `s.endsWith(pat)`. -/
def jsEndsWith (s pat : String) : Bool :=
  pat.data.isSuffixOf s.data

/-- The component's `useState`/`useRef` state.  `transcript` is the single
pending in-flight utterance (the spec's `pendingPartial`); `callStartTime`
is `callStartTimeRef`; `timerRunning` models whether `durationIntervalRef`
currently holds a live interval.  `handleCallEndCount` is ghost
instrumentation counting how many times `handleCallEnd()` (and with it the
summarizer) has been invoked; no source behaviour depends on it. -/
structure ComponentState where
  isCallActive : Bool
  isLoading : Bool
  isMuted : Bool
  error : String
  initialContext : String
  transcript : Option TranscriptMessage
  callDuration : Nat
  finalCallDuration : Nat
  consultationSummary : Option ConversationSummary
  showSummary : Bool
  isSpeaking : Bool
  messages : List TranscriptMessage
  isGeneratingSummary : Bool
  vapiAnalysisSummary : Option String
  endOfCallReport : Option EndOfCallReport
  userEndedCall : Bool
  callStartTime : Option Nat
  timerRunning : Bool
  handleCallEndCount : Nat
deriving DecidableEq, Repr

/-- The initial state of the component (the `useState` initial values). -/
def initialState : ComponentState where
  isCallActive := false
  isLoading := false
  isMuted := false
  error := ""
  initialContext := ""
  transcript := none
  callDuration := 0
  finalCallDuration := 0
  consultationSummary := none
  showSummary := false
  isSpeaking := false
  messages := []
  isGeneratingSummary := false
  vapiAnalysisSummary := none
  endOfCallReport := none
  userEndedCall := false
  callStartTime := none
  timerRunning := false
  handleCallEndCount := 0

/-- The fixed disclaimer string returned with every summary. -/
def disclaimerText : String :=
  "This consultation was with an AI assistant and does not constitute professional medical advice. Please consult with a qualified healthcare professional for proper medical diagnosis and treatment."

/-- The fixed assessment placeholder (`diagnosis` field of the summary). -/
def diagnosisText : String :=
  "General consultation - no diagnosis provided"

/-- The error message set by the catch-all in `handleCallEnd` when summary
generation itself throws (the "consultation failure" message). -/
def consultationFailureMsg : String :=
  "Failed to process consultation summary"

/-- Flattened transcript: each finalized message rendered as
"Label: text", joined by newlines, in `messages` order
(the `transcriptText` computation in `generateConsultationSummary`). -/
def transcriptText (msgs : List TranscriptMessage) : String :=
  String.intercalate "\n" (msgs.map (fun m => roleLabel m.role ++ ": " ++ m.content))

/-- The spec's `flattenTranscript`, applied to an accumulated state. -/
def flattenTranscript (s : ComponentState) : String :=
  transcriptText s.messages

/-- The follow-up fallback: the city/state template when both are truthy,
else the generic primary-care fallback
(`profile?.city && profile?.state ? ... : ...`). -/
def defaultFollowUp (profile : Option Profile) : String :=
  match profile with
  | some p =>
    if optTruthy p.city && optTruthy p.state then
      "Recommended to contact local healthcare providers in " ++
        p.city.getD "" ++ ", " ++ p.state.getD ""
    else
      "Contact your primary care physician or local healthcare provider"
  | none => "Contact your primary care physician or local healthcare provider"

/-- `vapiAnalysisSummary.split('. ').filter(s => s.trim().length > 0)`. -/
def analysisSentences (a : String) : List String :=
  (jsSplit a ". ").filter (fun s => decide (0 < (jsTrim s).length))

/-- `if (!x.endsWith('.')) x += '.'`. -/
def withPeriod (s : String) : String :=
  if jsEndsWith s "." then s else s ++ "."

/-- The symptoms / follow-up derivation of `generateConsultationSummary`:
(1) the end-of-call-report summary when truthy; (2) else the analysis
summary, segmented by sentences (first two sentences into symptoms, last
sentence into follow-up only when more than two); (3) else the
patient-role messages joined by "; "; else the fixed fallback. -/
def symptomsAndFollowUp (profile : Option Profile) (s : ComponentState) :
    String × String :=
  let followUp0 := defaultFollowUp profile
  if optTruthy (s.endOfCallReport.bind EndOfCallReport.summary) then
    ((s.endOfCallReport.bind EndOfCallReport.summary).getD "", followUp0)
  else if optTruthy s.vapiAnalysisSummary then
    let sentences := analysisSentences (s.vapiAnalysisSummary.getD "")
    if 2 ≤ sentences.length then
      (withPeriod (String.intercalate ". " (sentences.take 2)),
       if 2 < sentences.length then withPeriod (sentences.getLast?.getD "")
       else followUp0)
    else if sentences.length = 1 then
      (withPeriod (sentences.head?.getD ""), followUp0)
    else
      ("No specific symptoms mentioned", followUp0)
  else
    let userMessages := s.messages.filter (fun m => decide (m.role = Role.user))
    if 0 < userMessages.length then
      (String.intercalate "; " (userMessages.map TranscriptMessage.content),
       followUp0)
    else
      ("No specific symptoms mentioned", followUp0)

/-- `transcript` field of the summary: the end-of-call-report transcript when
truthy, else the locally flattened transcript. -/
def finalTranscriptOf (s : ComponentState) : String :=
  match s.endOfCallReport with
  | some r =>
    if optTruthy r.artifactTranscript then r.artifactTranscript.getD ""
    else transcriptText s.messages
  | none => transcriptText s.messages

/-- `generateConsultationSummary` of VoiceChatInterface.tsx: `null` when
`messages` is empty, else the assembled ConversationSummary.  The duration
field is the JavaScript `finalCallDuration || callDuration`. -/
def generateConsultationSummary (profile : Option Profile)
    (s : ComponentState) : Option ConversationSummary :=
  if s.messages.length = 0 then none
  else some
    { summary := "Voice consultation regarding: " ++ s.initialContext
    , symptoms := (symptomsAndFollowUp profile s).1
    , diagnosis := diagnosisText
    , followUpContacts := (symptomsAndFollowUp profile s).2
    , disclaimer := disclaimerText
    , duration :=
        if s.finalCallDuration ≠ 0 then s.finalCallDuration else s.callDuration
    , transcript := finalTranscriptOf s }

example : generateConsultationSummary none initialState = none := rfl

/-- The externally delivered events the component reacts to.  `callEndMsg` is
the `'call-end'` case of `handleMessage`; `callEndEvt` is the SDK
`'call-end'` event handled by `handleCallEndEvent`; `endOfCallReportMsg` is
the `'end-of-call-report'` case; `errorEvt` is the SDK `'error'` event
(`handleError`); `errorMsg` is the `'error'` case of `handleMessage`;
`userEndCallClick` is the user pressing End Consultation (`endCall`);
`endCallTimeout` is `endCall`'s 5-second fallback timeout firing.
`transcriptType` is carried verbatim ("partial" / "final" / other). -/
inductive VapiEvent where
  | callStartEvt (now : Nat)
  | transcriptEvt (role : Role) (text : String) (transcriptType : String) (now : Nat)
  | speechStartEvt (role : Role)
  | speechEndEvt (role : Role)
  | callEndMsg (now : Nat)
  | callEndEvt (now : Nat)
  | endOfCallReportMsg (summary : Option String) (artifactTranscript : Option String) (now : Nat)
  | errorEvt (msg : String)
  | errorMsg
  | timerTick (now : Nat)
  | userEndCallClick
  | endCallTimeout (now : Nat)
deriving DecidableEq, Repr

/-- "Capture final duration before stopping timer": when `callStartTimeRef`
is set, freeze `Math.floor((now - start) / 1000)` into both
`finalCallDuration` and `callDuration`. -/
def freezeDuration (now : Nat) (s : ComponentState) : ComponentState :=
  match s.callStartTime with
  | some start =>
    { s with finalCallDuration := (now - start) / 1000
           , callDuration := (now - start) / 1000 }
  | none => s

/-- One event-handling step of the component.  Each branch is the body of the
corresponding source handler; the trailing `handleCallEndCount` increment on
the termination branches records that `handleCallEnd()` was invoked there. -/
def step (e : VapiEvent) (s : ComponentState) : ComponentState :=
  match e with
  | VapiEvent.callStartEvt now =>
    -- handleCallStart: setIsCallActive(true); setError(''); setIsLoading(false);
    -- callStartTimeRef = new Date(); startDurationTimer()
    { s with isCallActive := true, error := "", isLoading := false
           , callStartTime := some now, timerRunning := true }
  | VapiEvent.transcriptEvt role text transcriptType now =>
    -- 'transcript' case: `if (message.transcript)` (empty string is falsy)
    if text = "" then s
    else if transcriptType = "partial" then
      { s with transcript := some ⟨toString now, role, text, now⟩ }
    else if transcriptType = "final" then
      { s with messages := s.messages ++ [⟨toString now, role, text, now⟩]
             , transcript := none }
    else s
  | VapiEvent.speechStartEvt role =>
    if role = Role.assistant then { s with isSpeaking := true } else s
  | VapiEvent.speechEndEvt role =>
    if role = Role.assistant then { s with isSpeaking := false } else s
  | VapiEvent.callEndMsg now =>
    -- 'call-end' case: "Only process if we haven't received an
    -- end-of-call-report yet"
    if s.endOfCallReport.isNone then
      let s1 := freezeDuration now s
      { s1 with isCallActive := false, timerRunning := false
              , isGeneratingSummary := true
              , handleCallEndCount := s1.handleCallEndCount + 1 }
    else s
  | VapiEvent.callEndEvt now =>
    -- handleCallEndEvent: same guard, additionally setIsLoading(false)
    if s.endOfCallReport.isNone then
      let s1 := freezeDuration now s
      { s1 with isCallActive := false, isLoading := false, timerRunning := false
              , isGeneratingSummary := true
              , handleCallEndCount := s1.handleCallEndCount + 1 }
    else s
  | VapiEvent.endOfCallReportMsg summary artifactTranscript now =>
    -- 'end-of-call-report' case: unconditional
    let s1 := freezeDuration now
      { s with endOfCallReport := some ⟨summary, artifactTranscript⟩ }
    { s1 with isCallActive := false, timerRunning := false
            , isGeneratingSummary := true
            , handleCallEndCount := s1.handleCallEndCount + 1 }
  | VapiEvent.errorEvt msg =>
    -- handleError: note no clearInterval on this path
    { s with error := "Voice assistant error: " ++ msg
           , isCallActive := false, isLoading := false }
  | VapiEvent.errorMsg =>
    { s with error := "Voice assistant error occurred" }
  | VapiEvent.timerTick now =>
    -- the setInterval callback; it only fires while the interval is live
    if s.timerRunning then
      match s.callStartTime with
      | some start => { s with callDuration := (now - start) / 1000 }
      | none => s
    else s
  | VapiEvent.userEndCallClick =>
    -- endCall: guarded by isCallActive; marks user end and shows the
    -- generating-summary screen, then waits on the engine / timeout
    if s.isCallActive then
      { s with userEndedCall := true, isGeneratingSummary := true }
    else s
  | VapiEvent.endCallTimeout now =>
    -- the 5s fallback in endCall: `if (isCallActive && !endOfCallReport)`
    if s.isCallActive && s.endOfCallReport.isNone then
      let s1 := freezeDuration now s
      { s1 with isCallActive := false, timerRunning := false
              , handleCallEndCount := s1.handleCallEndCount + 1 }
    else s

/-- Accumulate a stream of events from the initial component state. -/
def accumulate (events : List VapiEvent) : ComponentState :=
  events.foldl (fun s e => step e s) initialState

/-- The finalized utterance, if any, that a single event appends to
`messages`. -/
def finalMessageOf? (e : VapiEvent) : Option TranscriptMessage :=
  match e with
  | VapiEvent.transcriptEvt role text transcriptType now =>
    if text = "" then none
    else if transcriptType = "final" then some ⟨toString now, role, text, now⟩
    else none
  | _ => none

/-- Spec-side projection of a single event: the (role, text) pair when it is
a final transcript event. -/
def finalUtteranceOf? (e : VapiEvent) : Option (Role × String) :=
  match e with
  | VapiEvent.transcriptEvt role text transcriptType _ =>
    if transcriptType = "final" then some (role, text) else none
  | _ => none

/-- Spec-side projection of an event stream: the ordered (role, text) pairs
of its final transcript events, as the spec's round-trip property reads them
("the exact ordered list of final utterance texts"). -/
def finalUtterances (events : List VapiEvent) : List (Role × String) :=
  events.filterMap finalUtteranceOf?

/-- Outcome of the POST to /api/patient/consultations in `handleCallEnd`. -/
inductive PersistOutcome where
  | ok
  | httpError (msg : Option String)
  | networkError
deriving DecidableEq, Repr

/-- `handleCallEnd` of VoiceChatInterface.tsx as a pure function of the state
and the persistence outcome.  Returns the updated state together with the
list of summaries sent to the persistence endpoint (empty when no summary
was generated).  The unreachable catch-all of the source would set
`consultationFailureMsg`; summary generation in the model cannot throw. -/
def handleCallEnd (profile : Option Profile) (outcome : PersistOutcome)
    (s : ComponentState) : ComponentState × List ConversationSummary :=
  match generateConsultationSummary profile s with
  | some summary =>
    let s1 := { s with consultationSummary := some summary }
    let s2 :=
      match outcome with
      | PersistOutcome.ok => s1
      | PersistOutcome.httpError msg =>
        { s1 with error := "Failed to save consultation summary: " ++
            (if optTruthy msg then msg.getD "" else "Unknown error") }
      | PersistOutcome.networkError =>
        { s1 with error := "Failed to save consultation summary due to network error" }
    ({ s2 with isGeneratingSummary := false, showSummary := true }, [summary])
  | none =>
    ({ s with isGeneratingSummary := false, showSummary := true }, [])

/-- Calendar date as plain year / month (1-12) / day-of-month numbers. -/
structure SimpleDate where
  year : Nat
  month : Nat
  day : Nat
deriving DecidableEq, Repr

/-- `calculateAge` of src/lib/vapi.ts: whole-year subtraction, minus one when
today's month/day has not yet reached the birth month/day.  The source's
locals `age = today.getFullYear() - birthDate.getFullYear()` and
`monthDiff = today.getMonth() - birthDate.getMonth()` are inlined. -/
def calculateAge (today birthDate : SimpleDate) : Int :=
  if (today.month : Int) - (birthDate.month : Int) < 0 ∨
      ((today.month : Int) - (birthDate.month : Int) = 0 ∧
        (today.day : Int) < (birthDate.day : Int)) then
    (today.year : Int) - (birthDate.year : Int) - 1
  else
    (today.year : Int) - (birthDate.year : Int)

/-- Gregorian leap-year rule. -/
def isLeapYear (y : Nat) : Bool :=
  (y % 4 = 0 && y % 100 ≠ 0) || y % 400 = 0

/-- Days in a Gregorian month. -/
def daysInMonth (y m : Nat) : Nat :=
  if m = 2 then (if isLeapYear y then 29 else 28)
  else if m = 4 ∨ m = 6 ∨ m = 9 ∨ m = 11 then 30
  else 31

/-- The calendar day after a date. -/
def nextDay (d : SimpleDate) : SimpleDate :=
  if d.day < daysInMonth d.year d.month then ⟨d.year, d.month, d.day + 1⟩
  else if d.month < 12 then ⟨d.year, d.month + 1, 1⟩
  else ⟨d.year + 1, 1, 1⟩

/-! ### Helper lemmas -/

theorem freezeDuration_endOfCallReport (now : Nat) (s : ComponentState) :
    (freezeDuration now s).endOfCallReport = s.endOfCallReport := by
  unfold freezeDuration; cases s.callStartTime <;> rfl

theorem freezeDuration_messages (now : Nat) (s : ComponentState) :
    (freezeDuration now s).messages = s.messages := by
  unfold freezeDuration; cases s.callStartTime <;> rfl

theorem freezeDuration_handleCallEndCount (now : Nat) (s : ComponentState) :
    (freezeDuration now s).handleCallEndCount = s.handleCallEndCount := by
  unfold freezeDuration; cases s.callStartTime <;> rfl

theorem step_callEndMsg_of_report (t : Nat) (s : ComponentState)
    (h : s.endOfCallReport.isNone = false) :
    step (VapiEvent.callEndMsg t) s = s := by
  simp [step, h]

theorem step_callEndEvt_of_report (t : Nat) (s : ComponentState)
    (h : s.endOfCallReport.isNone = false) :
    step (VapiEvent.callEndEvt t) s = s := by
  simp [step, h]

theorem step_endCallTimeout_of_inactive (t : Nat) (s : ComponentState)
    (h : s.isCallActive = false) :
    step (VapiEvent.endCallTimeout t) s = s := by
  simp [step, h]

theorem step_messages (e : VapiEvent) (s : ComponentState) :
    (step e s).messages = s.messages ++ (finalMessageOf? e).toList := by
  cases e with
  | transcriptEvt role text transcriptType now =>
    by_cases h0 : text = ""
    · simp [step, finalMessageOf?, h0]
    · by_cases h1 : transcriptType = "partial"
      · have h2 : transcriptType ≠ "final" := by rw [h1]; decide
        simp [step, finalMessageOf?, h0, h1, h2]
      · by_cases h2 : transcriptType = "final" <;>
          simp [step, finalMessageOf?, h0, h1, h2]
  | callStartEvt now => simp [step, finalMessageOf?]
  | speechStartEvt role =>
    by_cases h : role = Role.assistant <;> simp [step, finalMessageOf?, h]
  | speechEndEvt role =>
    by_cases h : role = Role.assistant <;> simp [step, finalMessageOf?, h]
  | callEndMsg now =>
    by_cases h : s.endOfCallReport.isNone <;>
      simp [step, finalMessageOf?, h, freezeDuration_messages]
  | callEndEvt now =>
    by_cases h : s.endOfCallReport.isNone <;>
      simp [step, finalMessageOf?, h, freezeDuration_messages]
  | endOfCallReportMsg summary artifactTranscript now =>
    simp [step, finalMessageOf?, freezeDuration_messages]
  | errorEvt msg => simp [step, finalMessageOf?]
  | errorMsg => simp [step, finalMessageOf?]
  | timerTick now =>
    by_cases h : s.timerRunning
    · cases hc : s.callStartTime <;> simp [step, finalMessageOf?, h, hc]
    · simp [step, finalMessageOf?, h]
  | userEndCallClick =>
    by_cases h : s.isCallActive <;> simp [step, finalMessageOf?, h]
  | endCallTimeout now =>
    by_cases h : s.isCallActive && s.endOfCallReport.isNone <;>
      simp [step, finalMessageOf?, h, freezeDuration_messages]

theorem foldl_step_messages (events : List VapiEvent) (s : ComponentState) :
    (events.foldl (fun s e => step e s) s).messages
      = s.messages ++ events.filterMap finalMessageOf? := by
  induction events generalizing s with
  | nil => simp
  | cons e es ih =>
    rw [List.foldl_cons, ih (step e s), step_messages]
    cases h : finalMessageOf? e <;> simp [List.filterMap_cons, h]

theorem finalMessages_labels (events : List VapiEvent)
    (h : ∀ p ∈ finalUtterances events, p.2 ≠ "") :
    (events.filterMap finalMessageOf?).map
        (fun m => roleLabel m.role ++ ": " ++ m.content)
      = (finalUtterances events).map (fun p => roleLabel p.1 ++ ": " ++ p.2) := by
  induction events with
  | nil => rfl
  | cons e es ih =>
    have hmem : ∀ p ∈ finalUtterances es, p ∈ finalUtterances (e :: es) := by
      intro p hp
      unfold finalUtterances at hp ⊢
      rw [List.filterMap_cons]
      cases hfe : finalUtteranceOf? e
      · exact hp
      · exact List.mem_cons_of_mem _ hp
    have hes : ∀ p ∈ finalUtterances es, p.2 ≠ "" :=
      fun p hp => h p (hmem p hp)
    cases e
    case transcriptEvt role text transcriptType now =>
      by_cases hf : transcriptType = "final"
      · subst hf
        have ht : text ≠ "" := by
          apply h (role, text)
          unfold finalUtterances
          rw [List.filterMap_cons]
          simp [finalUtteranceOf?]
        simp [finalMessageOf?, finalUtterances, finalUtteranceOf?,
          List.filterMap_cons, ht, ih hes]
      · by_cases h0 : text = "" <;>
          simp [finalMessageOf?, finalUtterances, finalUtteranceOf?,
            List.filterMap_cons, hf, h0, ih hes]
    all_goals
      simpa [finalMessageOf?, finalUtterances, finalUtteranceOf?,
        List.filterMap_cons] using ih hes

theorem saveMsg_ne_processMsg (x : String) :
    ("Failed to save consultation summary: " ++ x) ≠ consultationFailureMsg := by
  intro h
  have h2 : ("Failed to save consultation summary: ").data ++ x.data
      = ("Failed to process consultation summary").data := by
    rw [← String.data_append, h]; rfl
  have hp : ("Failed to save consultation summary: ").data <+:
      ("Failed to process consultation summary").data := ⟨x.data, h2⟩
  exact absurd hp (by decide)

theorem voiceConsultPrefix_ne_empty (x : String) :
    ("Voice consultation regarding: " ++ x) ≠ "" := by
  intro h
  have h2 := congrArg String.length h
  rw [String.length_append] at h2
  have h3 : ("Voice consultation regarding: ").length = 30 := rfl
  rw [h3] at h2
  simp at h2

theorem generateConsultationSummary_of_nonempty (profile : Option Profile)
    (s : ComponentState) (hm : s.messages ≠ []) :
    generateConsultationSummary profile s = some
      { summary := "Voice consultation regarding: " ++ s.initialContext
      , symptoms := (symptomsAndFollowUp profile s).1
      , diagnosis := diagnosisText
      , followUpContacts := (symptomsAndFollowUp profile s).2
      , disclaimer := disclaimerText
      , duration :=
          if s.finalCallDuration ≠ 0 then s.finalCallDuration else s.callDuration
      , transcript := finalTranscriptOf s } := by
  unfold generateConsultationSummary
  rw [if_neg]
  simpa using hm

/-! ### Claims -/

/-- C1 counterexample: the claim that any set of termination signals
finalizes the session exactly once, with `durationSeconds` frozen at the
first accepted signal, is false.  A plain call-end at 5s (count 1, duration
frozen at 5) followed by an end-of-call-report at 9s re-finalizes: the
summarizer is invoked a second time and the duration is re-frozen at 9. -/
theorem c1_counterexample :
    (step (VapiEvent.callEndMsg 5000)
      (step (VapiEvent.callStartEvt 0) initialState)).handleCallEndCount = 1 ∧
    (step (VapiEvent.callEndMsg 5000)
      (step (VapiEvent.callStartEvt 0) initialState)).finalCallDuration = 5 ∧
    (step (VapiEvent.endOfCallReportMsg (some "Summary") none 9000)
      (step (VapiEvent.callEndMsg 5000)
        (step (VapiEvent.callStartEvt 0) initialState))).handleCallEndCount = 2 ∧
    (step (VapiEvent.endOfCallReportMsg (some "Summary") none 9000)
      (step (VapiEvent.callEndMsg 5000)
        (step (VapiEvent.callStartEvt 0) initialState))).finalCallDuration = 9 := by
  decide

/-- C1 (amended): termination is idempotent only against plain termination
signals arriving after an end-of-call-report.  Processing an
end-of-call-report invokes the summarizer exactly once, and every later
plain call-end (message or SDK event) and the user-end-call timeout leave
the state — in particular the frozen duration and the invocation count —
completely unchanged.  An end-of-call-report itself is always processed,
even after an earlier plain call-end (see the counterexample). -/
theorem c1_report_then_idempotent (s : ComponentState) (t1 t2 : Nat)
    (summary artifactTranscript : Option String) :
    (step (VapiEvent.endOfCallReportMsg summary artifactTranscript t1) s).handleCallEndCount
        = s.handleCallEndCount + 1 ∧
    step (VapiEvent.callEndMsg t2)
        (step (VapiEvent.endOfCallReportMsg summary artifactTranscript t1) s)
      = step (VapiEvent.endOfCallReportMsg summary artifactTranscript t1) s ∧
    step (VapiEvent.callEndEvt t2)
        (step (VapiEvent.endOfCallReportMsg summary artifactTranscript t1) s)
      = step (VapiEvent.endOfCallReportMsg summary artifactTranscript t1) s ∧
    step (VapiEvent.endCallTimeout t2)
        (step (VapiEvent.endOfCallReportMsg summary artifactTranscript t1) s)
      = step (VapiEvent.endOfCallReportMsg summary artifactTranscript t1) s := by
  have hr : (step (VapiEvent.endOfCallReportMsg summary artifactTranscript t1) s).endOfCallReport.isNone
      = false := by
    simp [step, freezeDuration_endOfCallReport]
  have ha : (step (VapiEvent.endOfCallReportMsg summary artifactTranscript t1) s).isCallActive
      = false := by
    simp [step]
  refine ⟨?_, ?_, ?_, ?_⟩
  · simp [step, freezeDuration_handleCallEndCount]
  · exact step_callEndMsg_of_report t2 _ hr
  · exact step_callEndEvt_of_report t2 _ hr
  · exact step_endCallTimeout_of_inactive t2 _ ha

/-- C2 counterexample: with the analysis string
"Patient reports mild fatigue. Recommend rest and hydration." (exactly two
sentences) and no end-of-call-report summary, the produced `symptoms` is the
whole two-sentence analysis, not the first sentence, and `followUpContacts`
is the generic fallback, not derived from the second sentence. -/
theorem c2_counterexample :
    ((generateConsultationSummary none
      { initialState with
          messages := [⟨"1", Role.user, "hello", 1⟩]
        , vapiAnalysisSummary :=
            some "Patient reports mild fatigue. Recommend rest and hydration." }).map
        ConversationSummary.symptoms
      = some "Patient reports mild fatigue. Recommend rest and hydration.") ∧
    ((generateConsultationSummary none
      { initialState with
          messages := [⟨"1", Role.user, "hello", 1⟩]
        , vapiAnalysisSummary :=
            some "Patient reports mild fatigue. Recommend rest and hydration." }).map
        ConversationSummary.symptoms
      ≠ some "Patient reports mild fatigue.") ∧
    ((generateConsultationSummary none
      { initialState with
          messages := [⟨"1", Role.user, "hello", 1⟩]
        , vapiAnalysisSummary :=
            some "Patient reports mild fatigue. Recommend rest and hydration." }).map
        ConversationSummary.followUpContacts
      = some "Contact your primary care physician or local healthcare provider") := by
  refine ⟨rfl, by decide, rfl⟩

/-- C2 (amended): when the engine analysis splits into exactly two non-empty
sentences and no end-of-call-report summary takes priority, `symptoms` is
the first two sentences joined back together (i.e. the whole analysis, with
a trailing period ensured) and `followUpContacts` falls back to the
city/state or generic template; the analysis contributes to the follow-up
only when it has more than two sentences. -/
theorem c2_two_sentence_split (profile : Option Profile) (s : ComponentState)
    (a : String)
    (hm : s.messages ≠ [])
    (ha : s.vapiAnalysisSummary = some a) (ha2 : a ≠ "")
    (hn : optTruthy (s.endOfCallReport.bind EndOfCallReport.summary) = false)
    (hs : (analysisSentences a).length = 2) :
    (generateConsultationSummary profile s).map ConversationSummary.symptoms
      = some (withPeriod (String.intercalate ". " ((analysisSentences a).take 2))) ∧
    (generateConsultationSummary profile s).map ConversationSummary.followUpContacts
      = some (defaultFollowUp profile) := by
  rw [generateConsultationSummary_of_nonempty profile s hm]
  have hsf : symptomsAndFollowUp profile s
      = (withPeriod (String.intercalate ". " ((analysisSentences a).take 2)),
         defaultFollowUp profile) := by
    unfold symptomsAndFollowUp
    rw [hn, ha]
    have htr : optTruthy (some a) = true := by
      simp [optTruthy, ha2]
    rw [htr]
    simp [hs]
  simp [hsf]

/-- C2 witness for the amended theorem, at the two-sentence analysis from the
spec scenario. -/
theorem c2_two_sentence_split_witness :
    ((generateConsultationSummary none
      { initialState with
          messages := [⟨"1", Role.user, "hello", 1⟩]
        , vapiAnalysisSummary :=
            some "Patient reports mild fatigue. Recommend rest and hydration." }).map
        ConversationSummary.symptoms
      = some (withPeriod (String.intercalate ". "
          ((analysisSentences
            "Patient reports mild fatigue. Recommend rest and hydration.").take 2)))) ∧
    ((generateConsultationSummary none
      { initialState with
          messages := [⟨"1", Role.user, "hello", 1⟩]
        , vapiAnalysisSummary :=
            some "Patient reports mild fatigue. Recommend rest and hydration." }).map
        ConversationSummary.followUpContacts
      = some (defaultFollowUp none)) :=
  c2_two_sentence_split none
    { initialState with
        messages := [⟨"1", Role.user, "hello", 1⟩]
      , vapiAnalysisSummary :=
          some "Patient reports mild fatigue. Recommend rest and hydration." }
    "Patient reports mild fatigue. Recommend rest and hydration."
    (by decide) rfl (by decide) rfl (by decide)

/-- C3 counterexample: the claim that a final event appends an entry and
clears the pending slot unconditionally is false for an empty-text final
event (the `if (message.transcript)` truthiness guard skips it): after a
pending partial "hello", a final event with text "" leaves the pending
entry in place and appends nothing. -/
theorem c3_counterexample :
    (step (VapiEvent.transcriptEvt Role.user "" "final" 2)
      (step (VapiEvent.transcriptEvt Role.user "hello" "partial" 1)
        initialState)).transcript
      = some ⟨"1", Role.user, "hello", 1⟩ ∧
    (step (VapiEvent.transcriptEvt Role.user "" "final" 2)
      (step (VapiEvent.transcriptEvt Role.user "hello" "partial" 1)
        initialState)).messages
      = [] := by
  decide

/-- C3 (amended): for transcript events carrying non-empty text, a partial
event wholly replaces the single pending slot (last write wins, regardless
of the previous pending entry or its role, never merging) and leaves
`messages` untouched, while a final event appends exactly one entry and
clears the pending slot unconditionally; `messages` only ever grows by
appending.  Events with empty text are ignored entirely. -/
theorem c3_accumulator (s : ComponentState) (role : Role) (text : String)
    (now : Nat) (h : text ≠ "") :
    (step (VapiEvent.transcriptEvt role text "partial" now) s).transcript
        = some ⟨toString now, role, text, now⟩ ∧
    (step (VapiEvent.transcriptEvt role text "partial" now) s).messages
        = s.messages ∧
    (step (VapiEvent.transcriptEvt role text "final" now) s).messages
        = s.messages ++ [⟨toString now, role, text, now⟩] ∧
    (step (VapiEvent.transcriptEvt role text "final" now) s).transcript
        = none := by
  refine ⟨?_, ?_, ?_, ?_⟩ <;> simp [step, h]

/-- C3 witness for the amended theorem. -/
theorem c3_accumulator_witness :
    (step (VapiEvent.transcriptEvt Role.assistant "hello there" "partial" 7)
      initialState).transcript
        = some ⟨"7", Role.assistant, "hello there", 7⟩ ∧
    (step (VapiEvent.transcriptEvt Role.assistant "hello there" "partial" 7)
      initialState).messages = initialState.messages ∧
    (step (VapiEvent.transcriptEvt Role.assistant "hello there" "final" 7)
      initialState).messages
        = initialState.messages ++ [⟨"7", Role.assistant, "hello there", 7⟩] ∧
    (step (VapiEvent.transcriptEvt Role.assistant "hello there" "final" 7)
      initialState).transcript = none :=
  c3_accumulator initialState Role.assistant "hello there" 7 (by decide)

/-- C4 counterexample: the round-trip claim fails on a stream containing a
final event with empty text: the accumulator drops it (truthiness guard),
so the flattened transcript misses the rendered "AI Nurse: " line that the
ordered list of final utterances contains. -/
theorem c4_counterexample :
    flattenTranscript
        (accumulate [VapiEvent.transcriptEvt Role.assistant "" "final" 0])
      = "" ∧
    (finalUtterances [VapiEvent.transcriptEvt Role.assistant "" "final" 0]).map
        (fun p => roleLabel p.1 ++ ": " ++ p.2)
      = ["AI Nurse: "] ∧
    flattenTranscript
        (accumulate [VapiEvent.transcriptEvt Role.assistant "" "final" 0])
      ≠ String.intercalate "\n"
          ((finalUtterances
            [VapiEvent.transcriptEvt Role.assistant "" "final" 0]).map
            (fun p => roleLabel p.1 ++ ": " ++ p.2)) := by
  refine ⟨rfl, rfl, by decide⟩

/-- C4 (amended): for every event stream whose final transcript events carry
non-empty text, flattening the accumulated transcript yields exactly the
ordered sequence of final utterance texts, each rendered as
"Role label: text" and joined by newlines in append order, independent of
any interleaved partial events (or any other events). -/
theorem c4_round_trip (events : List VapiEvent)
    (h : ∀ p ∈ finalUtterances events, p.2 ≠ "") :
    flattenTranscript (accumulate events)
      = String.intercalate "\n"
          ((finalUtterances events).map (fun p => roleLabel p.1 ++ ": " ++ p.2)) := by
  unfold flattenTranscript accumulate transcriptText
  rw [foldl_step_messages]
  have h0 : initialState.messages = [] := rfl
  rw [h0, List.nil_append, finalMessages_labels events h]

/-- C4 witness for the amended theorem: two finals with an interleaved
partial and a call lifecycle around them. -/
theorem c4_round_trip_witness :
    flattenTranscript (accumulate
      [ VapiEvent.callStartEvt 0
      , VapiEvent.transcriptEvt Role.user "started 3 days ago" "partial" 1000
      , VapiEvent.transcriptEvt Role.user "started 3 days ago" "final" 2000
      , VapiEvent.transcriptEvt Role.assistant "I see" "partial" 3000
      , VapiEvent.transcriptEvt Role.assistant "I see" "final" 4000
      , VapiEvent.callEndMsg 5000 ])
      = String.intercalate "\n"
          ((finalUtterances
            [ VapiEvent.callStartEvt 0
            , VapiEvent.transcriptEvt Role.user "started 3 days ago" "partial" 1000
            , VapiEvent.transcriptEvt Role.user "started 3 days ago" "final" 2000
            , VapiEvent.transcriptEvt Role.assistant "I see" "partial" 3000
            , VapiEvent.transcriptEvt Role.assistant "I see" "final" 4000
            , VapiEvent.callEndMsg 5000 ]).map
            (fun p => roleLabel p.1 ++ ": " ++ p.2)) :=
  c4_round_trip
    [ VapiEvent.callStartEvt 0
    , VapiEvent.transcriptEvt Role.user "started 3 days ago" "partial" 1000
    , VapiEvent.transcriptEvt Role.user "started 3 days ago" "final" 2000
    , VapiEvent.transcriptEvt Role.assistant "I see" "partial" 3000
    , VapiEvent.transcriptEvt Role.assistant "I see" "final" 4000
    , VapiEvent.callEndMsg 5000 ]
    (by decide)

/-- C5: for every session whose `messages` list is empty at finalization,
the summarizer returns `null` (not an empty record), no persistence request
is issued, and no error is raised (the error field is untouched) — the null
outcome is a valid no-op. -/
theorem c5_empty_session_noop (profile : Option Profile)
    (outcome : PersistOutcome) (s : ComponentState) (hm : s.messages = []) :
    generateConsultationSummary profile s = none ∧
    (handleCallEnd profile outcome s).2 = [] ∧
    (handleCallEnd profile outcome s).1.error = s.error ∧
    (handleCallEnd profile outcome s).1.showSummary = true := by
  have hg : generateConsultationSummary profile s = none := by
    unfold generateConsultationSummary
    simp [hm]
  refine ⟨hg, ?_, ?_, ?_⟩ <;> simp [handleCallEnd, hg]

/-- C5 witness. -/
theorem c5_empty_session_noop_witness :
    generateConsultationSummary none initialState = none ∧
    (handleCallEnd none PersistOutcome.networkError initialState).2 = [] ∧
    (handleCallEnd none PersistOutcome.networkError initialState).1.error
      = initialState.error ∧
    (handleCallEnd none PersistOutcome.networkError initialState).1.showSummary
      = true :=
  c5_empty_session_noop none PersistOutcome.networkError initialState rfl

/-- C6: every non-null summary has the fixed non-empty disclaimer constant,
a non-empty `summary` text, and the fixed no-diagnosis placeholder as its
assessment. -/
theorem c6_summary_invariants (profile : Option Profile) (s : ComponentState)
    (hm : s.messages ≠ []) :
    (generateConsultationSummary profile s).map ConversationSummary.disclaimer
      = some disclaimerText ∧
    (generateConsultationSummary profile s).map ConversationSummary.summary
      = some ("Voice consultation regarding: " ++ s.initialContext) ∧
    (generateConsultationSummary profile s).map ConversationSummary.diagnosis
      = some diagnosisText ∧
    disclaimerText ≠ "" ∧
    ("Voice consultation regarding: " ++ s.initialContext) ≠ "" := by
  rw [generateConsultationSummary_of_nonempty profile s hm]
  refine ⟨rfl, rfl, rfl, by decide, voiceConsultPrefix_ne_empty s.initialContext⟩

/-- C6 witness. -/
theorem c6_summary_invariants_witness :
    (generateConsultationSummary none
      { initialState with messages := [⟨"1", Role.user, "hi", 1⟩] }).map
        ConversationSummary.disclaimer = some disclaimerText ∧
    (generateConsultationSummary none
      { initialState with messages := [⟨"1", Role.user, "hi", 1⟩] }).map
        ConversationSummary.summary
      = some ("Voice consultation regarding: "
          ++ ({ initialState with
                messages := [⟨"1", Role.user, "hi", 1⟩] } : ComponentState).initialContext) ∧
    (generateConsultationSummary none
      { initialState with messages := [⟨"1", Role.user, "hi", 1⟩] }).map
        ConversationSummary.diagnosis = some diagnosisText ∧
    disclaimerText ≠ "" ∧
    ("Voice consultation regarding: "
        ++ ({ initialState with
              messages := [⟨"1", Role.user, "hi", 1⟩] } : ComponentState).initialContext)
      ≠ "" :=
  c6_summary_invariants none
    { initialState with messages := [⟨"1", Role.user, "hi", 1⟩] } (by decide)

/-- C7: for a date of birth whose month/day is exactly the day after today
(within the same calendar year, so the anniversary has not yet occurred),
the computed age is the plain year difference minus one — calendar-aware
whole-year subtraction. -/
theorem c7_age_boundary (today birthDate : SimpleDate)
    (h1 : 1 ≤ today.month) (h2 : today.month ≤ 12)
    (h3 : 1 ≤ today.day) (h4 : today.day ≤ daysInMonth today.year today.month)
    (h5 : ¬(today.month = 12 ∧ today.day = 31))
    (hb1 : birthDate.month = (nextDay today).month)
    (hb2 : birthDate.day = (nextDay today).day) :
    calculateAge today birthDate
      = (today.year : Int) - (birthDate.year : Int) - 1 := by
  unfold calculateAge
  by_cases hlt : today.day < daysInMonth today.year today.month
  · have hbm : birthDate.month = today.month := by
      rw [hb1]; unfold nextDay; rw [if_pos hlt]
    have hbd : birthDate.day = today.day + 1 := by
      rw [hb2]; unfold nextDay; rw [if_pos hlt]
    have hcond : (today.month : Int) - (birthDate.month : Int) < 0 ∨
        ((today.month : Int) - (birthDate.month : Int) = 0 ∧
          (today.day : Int) < (birthDate.day : Int)) := by
      right
      rw [hbm, hbd]
      constructor
      · omega
      · push_cast
        omega
    rw [if_pos hcond]
  · have h31 : daysInMonth today.year 12 = 31 := by simp [daysInMonth]
    have hm12 : today.month < 12 := by
      rcases Nat.lt_or_ge today.month 12 with hc | hc
      · exact hc
      · exfalso
        have hq : today.month = 12 := by omega
        apply h5
        refine ⟨hq, ?_⟩
        rw [hq, h31] at h4
        rw [hq, h31] at hlt
        omega
    have hbm : birthDate.month = today.month + 1 := by
      rw [hb1]; unfold nextDay; rw [if_neg hlt, if_pos hm12]
    have hcond : (today.month : Int) - (birthDate.month : Int) < 0 ∨
        ((today.month : Int) - (birthDate.month : Int) = 0 ∧
          (today.day : Int) < (birthDate.day : Int)) := by
      left
      rw [hbm]
      push_cast
      omega
    rw [if_pos hcond]

/-- C7 witness: today 2026-10-11, date of birth 1990-10-12 (anniversary
tomorrow): age is 2026 - 1990 - 1 = 35. -/
theorem c7_age_boundary_witness :
    calculateAge ⟨2026, 10, 11⟩ ⟨1990, 10, 12⟩ = (2026 : Int) - 1990 - 1 :=
  c7_age_boundary ⟨2026, 10, 11⟩ ⟨1990, 10, 12⟩ (by decide) (by decide)
    (by decide) (by decide) (by decide) rfl rfl

/-- C8: the claim that every path leaving Active cancels the duration timer
is right, but the code's SDK error handler violates it: after an engine
error event during an active call, the session has left Active
(`isCallActive = false`) while the 1-second interval is still running —
a leaked timer on the error path. -/
theorem c8_error_path_leaks_timer :
    (step (VapiEvent.callStartEvt 0) initialState).isCallActive = true ∧
    (step (VapiEvent.callStartEvt 0) initialState).timerRunning = true ∧
    (step (VapiEvent.errorEvt "connection lost")
      (step (VapiEvent.callStartEvt 0) initialState)).isCallActive = false ∧
    (step (VapiEvent.errorEvt "connection lost")
      (step (VapiEvent.callStartEvt 0) initialState)).timerRunning = true := by
  decide

/-- C9: when persistence fails (HTTP failure or network error), the error
reported is a save failure distinct from the consultation-failure message,
while the generated in-memory summary remains set and the summary view is
still shown; a persistence failure never clears or alters the summary. -/
theorem c9_persistence_failure (profile : Option Profile) (s : ComponentState)
    (m : Option String) (hm : s.messages ≠ []) :
    (handleCallEnd profile PersistOutcome.networkError s).1.consultationSummary
        = generateConsultationSummary profile s ∧
    (handleCallEnd profile PersistOutcome.networkError s).1.showSummary = true ∧
    (handleCallEnd profile PersistOutcome.networkError s).1.error
        = "Failed to save consultation summary due to network error" ∧
    (handleCallEnd profile PersistOutcome.networkError s).1.error
        ≠ consultationFailureMsg ∧
    (handleCallEnd profile (PersistOutcome.httpError m) s).1.consultationSummary
        = generateConsultationSummary profile s ∧
    (handleCallEnd profile (PersistOutcome.httpError m) s).1.showSummary = true ∧
    (handleCallEnd profile (PersistOutcome.httpError m) s).1.error
        ≠ consultationFailureMsg := by
  have hg := generateConsultationSummary_of_nonempty profile s hm
  refine ⟨?_, ?_, ?_, ?_, ?_, ?_, ?_⟩ <;>
    simp [handleCallEnd, hg]
  · decide
  · exact saveMsg_ne_processMsg _

/-- C9 witness. -/
theorem c9_persistence_failure_witness :
    (handleCallEnd none PersistOutcome.networkError
        { initialState with messages := [⟨"1", Role.user, "hi", 1⟩] }).1.consultationSummary
      = generateConsultationSummary none
          { initialState with messages := [⟨"1", Role.user, "hi", 1⟩] } ∧
    (handleCallEnd none PersistOutcome.networkError
        { initialState with messages := [⟨"1", Role.user, "hi", 1⟩] }).1.showSummary = true ∧
    (handleCallEnd none PersistOutcome.networkError
        { initialState with messages := [⟨"1", Role.user, "hi", 1⟩] }).1.error
      = "Failed to save consultation summary due to network error" ∧
    (handleCallEnd none PersistOutcome.networkError
        { initialState with messages := [⟨"1", Role.user, "hi", 1⟩] }).1.error
      ≠ consultationFailureMsg ∧
    (handleCallEnd none (PersistOutcome.httpError (some "boom"))
        { initialState with messages := [⟨"1", Role.user, "hi", 1⟩] }).1.consultationSummary
      = generateConsultationSummary none
          { initialState with messages := [⟨"1", Role.user, "hi", 1⟩] } ∧
    (handleCallEnd none (PersistOutcome.httpError (some "boom"))
        { initialState with messages := [⟨"1", Role.user, "hi", 1⟩] }).1.showSummary = true ∧
    (handleCallEnd none (PersistOutcome.httpError (some "boom"))
        { initialState with messages := [⟨"1", Role.user, "hi", 1⟩] }).1.error
      ≠ consultationFailureMsg :=
  c9_persistence_failure none
    { initialState with messages := [⟨"1", Role.user, "hi", 1⟩] }
    (some "boom") (by decide)

/-- C10: the summary's reported duration is the frozen final duration when
that value is non-zero; when the frozen value is 0, the live counter value
is reported instead (`finalCallDuration || callDuration`), so a frozen zero
is never itself persisted. -/
theorem c10_duration_fallback (profile : Option Profile) (s : ComponentState)
    (hm : s.messages ≠ []) :
    (s.finalCallDuration ≠ 0 →
      (generateConsultationSummary profile s).map ConversationSummary.duration
        = some s.finalCallDuration) ∧
    (s.finalCallDuration = 0 →
      (generateConsultationSummary profile s).map ConversationSummary.duration
        = some s.callDuration) := by
  rw [generateConsultationSummary_of_nonempty profile s hm]
  constructor
  · intro h
    simp [h]
  · intro h
    simp [h]

/-- C10 witness: frozen duration 95 is reported; frozen duration 0 falls back
to the live counter (42). -/
theorem c10_duration_fallback_witness :
    ((({ initialState with
          messages := [⟨"1", Role.user, "hi", 1⟩]
        , finalCallDuration := 95
        , callDuration := 42 } : ComponentState).finalCallDuration ≠ 0 →
      (generateConsultationSummary none
        { initialState with
            messages := [⟨"1", Role.user, "hi", 1⟩]
          , finalCallDuration := 95
          , callDuration := 42 }).map ConversationSummary.duration
        = some ({ initialState with
            messages := [⟨"1", Role.user, "hi", 1⟩]
          , finalCallDuration := 95
          , callDuration := 42 } : ComponentState).finalCallDuration) ∧
    (({ initialState with
          messages := [⟨"1", Role.user, "hi", 1⟩]
        , finalCallDuration := 95
        , callDuration := 42 } : ComponentState).finalCallDuration = 0 →
      (generateConsultationSummary none
        { initialState with
            messages := [⟨"1", Role.user, "hi", 1⟩]
          , finalCallDuration := 95
          , callDuration := 42 }).map ConversationSummary.duration
        = some ({ initialState with
            messages := [⟨"1", Role.user, "hi", 1⟩]
          , finalCallDuration := 95
          , callDuration := 42 } : ComponentState).callDuration)) :=
  c10_duration_fallback none
    { initialState with
        messages := [⟨"1", Role.user, "hi", 1⟩]
      , finalCallDuration := 95
      , callDuration := 42 } (by decide)

end VoiceAgent
